import Mathlib

/-!
# Verification of the movie-proxy link-resolution and caching service

A shallow embedding of `app.py`: the record store (`downloads` table), the
disk cache with TTL expiry, the id generator, and the three HTTP routes
(`/submit`, `/download-page/<id>`, `/download/<id>`).

Bytes are modelled as natural numbers, byte strings as lists of them.
Wall-clock times (`time.time()`, file mtimes) are modelled as integers.
The external collaborators (the Playwright scraper
`get_wildshare_download_link` and `requests.get`) are modelled as oracles
supplied by a `World` structure.

Flask streaming semantics are modelled faithfully in two phases: the route
handler body (`download`) runs first and returns either an error response or
a streaming-response descriptor; the generator inside the descriptor is only
iterated afterwards, by the WSGI layer (`run_stream`), outside the handler's
try/except blocks.
-/

/-- A byte, `0 ≤ b < 256` not enforced since no property depends on it. -/
abbrev Byte := Nat

/-- Contents of a file, as the list of its bytes. -/
abbrev Bytes := List Byte

/-- A cache blob on disk: its byte content and its last-write (mtime) timestamp. -/
structure CacheFile where
  content : Bytes
  mtime : Int
deriving DecidableEq

/-- The cache directory, as an association list from file path to blob.
Lookup takes the first binding for a path. -/
abbrev CacheState := List (String × CacheFile)

def CACHE_DIR : String := "cache"

/-- The TTL: `CACHE_TTL_SECONDS = 7 * 24 * 3600  # 7 days`. -/
def CACHE_TTL_SECONDS : Int := 7 * 24 * 3600

def BASE_URL : String := "http://localhost:5000"

def lookupCache (c : CacheState) (p : String) : Option CacheFile :=
  (c.find? (fun e => e.1 == p)).map (fun e => e.2)

/-- Writing a blob at path `p` (open for write, truncating any previous file). -/
def setCache (c : CacheState) (p : String) (f : CacheFile) : CacheState :=
  (p, f) :: c.filter (fun e => e.1 != p)

/-- Deletion `os.remove(p)` of a file of the cache directory. -/
def removeCache (c : CacheState) (p : String) : CacheState :=
  c.filter (fun e => e.1 != p)

/-- The digest `hashlib.md5(url.encode()).hexdigest()` is modelled as an injective
fingerprint of the URL string; only determinism of the digest is relevant to
the properties below. -/
def md5_hexdigest (url : String) : String := url

/-- Function `get_cache_path`: `os.path.join(CACHE_DIR, md5(url).hexdigest() + '.cache')`. -/
def get_cache_path (original_url : String) : String :=
  CACHE_DIR ++ "/" ++ md5_hexdigest original_url ++ ".cache"

/-- Function `is_cache_valid`: the cached file exists and `time.time() - mtime` is
strictly below the TTL. -/
def is_cache_valid (c : CacheState) (cache_path : String) (now : Int) : Bool :=
  match lookupCache c cache_path with
  | none => false
  | some f => decide (now - f.mtime < CACHE_TTL_SECONDS)

/-- Function `clean_old_cache`: delete every `*.cache` file whose age is strictly
greater than the TTL. -/
def clean_old_cache (c : CacheState) (now : Int) : CacheState :=
  c.filter (fun e => !decide (now - e.2.mtime > CACHE_TTL_SECONDS))

/-! ## Id generation (`secrets.token_hex`, `generate_id`) -/

/-- Whether a character is one of the sixteen lower-case hex digits that
Python's hex encoding emits. -/
def isHexChar (c : Char) : Bool := c.isDigit || ('a' ≤ c && c ≤ 'f')

/-- The lower-case hex digit of a value reduced mod 16. -/
def hexDigit (n : Nat) : Char := Nat.digitChar (n % 16)

/-- Python's `secrets.token_hex(k)`: k random bytes, hex-encoded into 2k lower-case hex
characters; the cryptographic random source is modelled as a stream of bytes. -/
def token_hex (k : Nat) (rand : Nat → Byte) : List Char :=
  (List.range k).flatMap (fun i => [hexDigit ((rand i / 16) % 16), hexDigit (rand i % 16)])

/-- Function `generate_id(length=6)`: `secrets.token_hex(length // 2)[:length]`.
Python call sites use the default `length = 6`. -/
def generate_id (rand : Nat → Byte) (length : Nat) : List Char :=
  (token_hex (length / 2) rand).take length

/-! ## Record store (`downloads` table) -/

/-- One row of the `downloads` table, keyed externally by `id`. -/
structure DownloadRecord where
  original_url : String
  renamed_filename : String
  generated_link : String
  downloads : Nat
  file_size : Option String
deriving DecidableEq

/-- The `downloads` table, as an association list from id to row.
Lookup takes the first binding for an id. -/
abbrev Store := List (String × DownloadRecord)

def lookupStore (s : Store) (id : String) : Option DownloadRecord :=
  (s.find? (fun e => e.1 == id)).map (fun e => e.2)

/-- The statement `UPDATE downloads SET file_size = ? WHERE id = ?`. -/
def updateSize (s : Store) (id : String) (size : String) : Store :=
  s.map (fun e =>
    if e.1 == id then
      (e.1, ⟨e.2.original_url, e.2.renamed_filename, e.2.generated_link,
             e.2.downloads, some size⟩)
    else e)

/-! ## `/submit` -/

/-- Outcome of `POST /submit`. -/
inductive SubmitResult where
  /-- Status 400 with `{"error": "Missing 'url'"}`. -/
  | badRequest (error : String)
  /-- Uncaught `sqlite3.IntegrityError` from the `INSERT` on a duplicate
  primary key: Flask turns it into a 500. -/
  | serverError
  /-- Status 200 with the JSON body `{id, original_url, renamed_filename, generated_link}`. -/
  | ok (id original_url renamed_filename generated_link : String)
deriving DecidableEq

/-- The `/submit` handler. The JSON body is `{url?, filename?}` (`none` models
an absent key, matching `data.get`); the random source feeding `generate_id()`
is a parameter. `if not original_url` is true for both an absent and an empty
url. -/
def submit (s : Store) (url : Option String) (filename : Option String)
    (rand : Nat → Byte) : SubmitResult × Store :=
  let renamed_filename := filename.getD "download.mkv"
  match url with
  | none => (.badRequest "Missing 'url'", s)
  | some u =>
    if u = "" then (.badRequest "Missing 'url'", s)
    else
      let file_id : String := ⟨generate_id rand 6⟩
      let generated_link := BASE_URL ++ "/download-page/" ++ file_id
      if (lookupStore s file_id).isSome then (.serverError, s)
      else
        (.ok file_id u renamed_filename generated_link,
         (file_id, ⟨u, renamed_filename, generated_link, 0, none⟩) :: s)

/-! ## `/download-page/<id>` -/

/-- Outcome of `GET /download-page/<id>`. -/
inductive PageResult where
  /-- Status 404 `"File not found"`. -/
  | notFound
  /-- Status 200 with the HTML page showing the filename and size. -/
  | page (filename : String) (file_size : String)
deriving DecidableEq

/-- The `/download-page/<id>` handler: a read-only lookup (it touches neither
the store nor the cache, as its type shows). `if not file_size` replaces both
`NULL` and the empty string by `"Unknown size"`. -/
def download_page (s : Store) (id : String) : PageResult :=
  match lookupStore s id with
  | none => .notFound
  | some row =>
    let file_size := match row.file_size with
      | none => "Unknown size"
      | some fs => if fs = "" then "Unknown size" else fs
    .page row.renamed_filename file_size

/-! ## Python's substring test (`needle in haystack`) -/

/-- Test `needle == haystack[:len(needle)]`. -/
def leadsWith : List Char → List Char → Bool
  | [], _ => true
  | a :: as, hay =>
    match hay with
    | b :: bs => a == b && leadsWith as bs
    | [] => false

/-- Whether `needle` occurs as a contiguous subsequence of the haystack. -/
def containsSeq (needle : List Char) : List Char → Bool
  | [] => leadsWith needle []
  | c :: t => leadsWith needle (c :: t) || containsSeq needle t

/-- Python's `needle in hay` on strings. -/
def strIn (needle hay : String) : Bool := containsSeq needle.data hay.data

/-- The needs-resolution test of the `/download` handler:
`'wildshare.net' in original_url and '?' not in original_url`. -/
def needs_resolution (original_url : String) : Bool :=
  strIn "wildshare.net" original_url && !(original_url.data.contains '?')

/-! ## External collaborators -/

/-- A successful return of `get_wildshare_download_link`:
`(download_url, cookie_dict, file_size)`. -/
structure ResolverSuccess where
  direct_url : String
  cookies : List (String × String)
  file_size : String
deriving DecidableEq

/-- One invocation of the external Link Resolver
(`get_wildshare_download_link`, headless-browser scraping): it either returns
or raises. -/
inductive ResolverOutcome where
  | ok (r : ResolverSuccess)
  | raise (msg : String)

/-- The object returned by `requests.get(download_url, stream=True, ...)`:
status, the two response headers the handler reads, and the behaviour of
`iter_content(chunk_size=8192)`: the chunks it yields, and whether it raises
after yielding them (connection dropped mid-stream). -/
structure UpstreamResponse where
  status_code : Nat
  content_length : Option String
  content_type : Option String
  chunks : List Bytes
  iterFails : Bool

/-- Call `requests.get` either raises (timeout, connection error) or returns a
response. -/
inductive FetchOutcome where
  | raise (msg : String)
  | resp (r : UpstreamResponse)

/-- The external world one `/download` request interacts with: the Link
Resolver, the database `UPDATE` of `file_size` (`some msg` when it raises),
and the upstream HTTP fetch. -/
structure World where
  resolver : String → ResolverOutcome
  dbUpdateError : Option String
  fetch : String → FetchOutcome

/-- Python's `str.isdigit()`: nonempty and all characters decimal digits. -/
def pyIsDigit (v : String) : Bool := !v.data.isEmpty && v.data.all (fun ch => ch.isDigit)

/-- The response headers the handler constructs. -/
structure RespHeaders where
  content_disposition : String
  content_length : Option String
  content_type : String
deriving DecidableEq

/-! ## `/download/<id>`: the handler body (phase 1) -/

/-- What the `/download` handler body returns. The two `serve*` constructors
are streaming responses whose generator has not started running yet. -/
inductive Phase1 where
  /-- Status 404 `"File not found"`. -/
  | notFound
  /-- Status 500 `"Failed to scrape WildShare: ..."` (resolver raised, or the
  `file_size` UPDATE raised inside the same try). -/
  | scrapeFailed (msg : String)
  /-- Status 502 `"Remote server returned ..."`. -/
  | remoteStatus (code : Nat)
  /-- Status 500 `"Download failed: ..."` (`requests.get` raised before the response
  was returned; the blob at `cache_path`, if any, was deleted). -/
  | downloadFailed (msg : String)
  /-- Status 200 streaming from the cache blob at `cache_path`. -/
  | serveCache (cache_path : String) (headers : RespHeaders)
  /-- Status 200 streaming from upstream while writing through to `cache_path`. -/
  | serveUpstream (cache_path : String) (chunks : List Bytes) (iterFails : Bool)
      (headers : RespHeaders)
deriving DecidableEq

/-- The part of the `/download` handler from the cache-validity check onward,
for a given (possibly resolver-rewritten) `download_url`. Returns the
response descriptor and the cache state as left by the handler body. -/
def fetch_and_serve (w : World) (c : CacheState) (now : Int)
    (filename download_url : String) : Phase1 × CacheState :=
  let cache_path := get_cache_path download_url
  if is_cache_valid c cache_path now then
    -- file_size = str(os.path.getsize(cache_path)); the lookup cannot miss
    -- here since is_cache_valid just found the entry.
    let size := match lookupCache c cache_path with
      | some f => toString f.content.length
      | none => "0"
    (.serveCache cache_path
       ⟨"attachment; filename=\"" ++ filename ++ "\"", some size, "video/x-matroska"⟩,
     c)
  else
    match w.fetch download_url with
    | .raise msg =>
      -- except: if os.path.exists(cache_path): os.remove(cache_path); 500
      (.downloadFailed ("Download failed: " ++ msg), removeCache c cache_path)
    | .resp r =>
      if r.status_code ≠ 200 then (.remoteStatus r.status_code, c)
      else
        -- file_size = headers.get('Content-Length'); falsy values skip the
        -- isdigit test, and only truthy values are put into the headers.
        let file_size : Option String := match r.content_length with
          | none => none
          | some v => if v ≠ "" && !pyIsDigit v then none else some v
        let cl : Option String := match file_size with
          | none => none
          | some v => if v = "" then none else some v
        (.serveUpstream cache_path r.chunks r.iterFails
           ⟨"attachment; filename=\"" ++ filename ++ "\"", cl,
            (r.content_type).getD "video/x-matroska"⟩,
         c)

/-- The `/download/<id>` handler body. Returns the response descriptor, the
store and cache as left by the body, and how many times the Link Resolver was
invoked. The body starts with `clean_old_cache()`, before the record lookup. -/
def download (w : World) (s : Store) (c : CacheState) (now : Int) (id : String) :
    Phase1 × Store × CacheState × Nat :=
  let c1 := clean_old_cache c now
  match lookupStore s id with
  | none => (.notFound, s, c1, 0)
  | some row =>
    if needs_resolution row.original_url then
      match w.resolver row.original_url with
      | .raise msg => (.scrapeFailed ("Failed to scrape WildShare: " ++ msg), s, c1, 1)
      | .ok res =>
        match w.dbUpdateError with
        | some msg =>
          -- the UPDATE sits inside the same try as the resolver call, so its
          -- exception is caught by the same handler and aborts the request
          (.scrapeFailed ("Failed to scrape WildShare: " ++ msg), s, c1, 1)
        | none =>
          ((fetch_and_serve w c1 now row.renamed_filename res.direct_url).1,
           updateSize s id res.file_size,
           (fetch_and_serve w c1 now row.renamed_filename res.direct_url).2, 1)
    else
      ((fetch_and_serve w c1 now row.renamed_filename row.original_url).1, s,
       (fetch_and_serve w c1 now row.renamed_filename row.original_url).2, 0)

/-! ## `/download/<id>`: response streaming (phase 2)

The generator inside a streaming `Response` only runs when the WSGI layer
iterates it, after the handler body has already returned; the handler's
try/except blocks are out of scope by then, so an exception raised inside
the generator propagates to the server, not to the `except` clauses of
`download`. -/

/-- Loop `while chunk := f.read(8192): yield chunk` — the chunks produced by
reading a file of the given content 8192 bytes at a time. -/
def readChunks (xs : Bytes) : List Bytes :=
  match xs with
  | [] => []
  | x :: t => ((x :: t).take 8192) :: readChunks ((x :: t).drop 8192)
termination_by xs.length
decreasing_by simp; omega

/-- The observable outcome of iterating the streaming response: the chunks
delivered to the client, the cache state afterwards, and whether the
generator raised mid-stream. -/
structure StreamOutcome where
  sent : List Bytes
  cache : CacheState
  errored : Bool
deriving DecidableEq

/-- Iterate the generator of a `Phase1` response descriptor.

* `serveCache`: `stream_from_cache` reads the blob 8192 bytes at a time.
* `serveUpstream`: `stream_and_cache` opens `cache_path` for writing
  (creating/truncating the blob), then for each nonempty upstream chunk
  yields it to the client and writes it to the blob.  If `iter_content`
  raises mid-stream, the exception escapes the generator and the partially
  written blob is left in place with a fresh mtime — nothing deletes it,
  because the handler's `except` block has already gone out of scope.
* error descriptors have no generator to run. -/
def run_stream (p : Phase1) (c : CacheState) (now : Int) : StreamOutcome :=
  match p with
  | .serveCache path _ =>
    match lookupCache c path with
    | some f => ⟨readChunks f.content, c, false⟩
    | none => ⟨[], c, true⟩
  | .serveUpstream path chunks iterFails _ =>
    let sent := chunks.filter (fun ch => !ch.isEmpty)
    ⟨sent, setCache c path ⟨sent.flatten, now⟩, iterFails⟩
  | _ => ⟨[], c, false⟩

/-- The full observable outcome of one `GET /download/<id>` request:
handler body followed by response streaming. -/
structure RequestOutcome where
  phase : Phase1
  store : Store
  stream : StreamOutcome
  resolverCalls : Nat

/-- One complete `GET /download/<id>` request. -/
def download_request (w : World) (s : Store) (c : CacheState) (now : Int)
    (id : String) : RequestOutcome :=
  let r := download w s c now id
  ⟨r.1, r.2.1, run_stream r.1 r.2.2.1 now, r.2.2.2⟩

/-! ## Helper lemmas -/

theorem readChunks_flatten (xs : Bytes) : (readChunks xs).flatten = xs := by
  match xs with
  | [] => simp [readChunks]
  | x :: t =>
    rw [readChunks]
    have ih := readChunks_flatten ((x :: t).drop 8192)
    simp only [List.flatten_cons, ih, List.take_append_drop]
termination_by xs.length
decreasing_by simp; omega

theorem flatten_filter_nonempty (l : List Bytes) :
    (l.filter (fun ch => !ch.isEmpty)).flatten = l.flatten := by
  induction l with
  | nil => rfl
  | cons h t ih =>
    by_cases hh : h.isEmpty
    · have : h = [] := by simpa [List.isEmpty_iff] using hh
      simp [this, List.filter_cons, ih]
    · simp [List.filter_cons, hh, ih]

theorem lookupCache_set (c : CacheState) (p : String) (f : CacheFile) :
    lookupCache (setCache c p f) p = some f := by
  simp [lookupCache, setCache, List.find?]

theorem lookupCache_clean (c : CacheState) (t : Int) (p : String) (f : CacheFile)
    (h : lookupCache c p = some f) (hk : ¬(t - f.mtime > CACHE_TTL_SECONDS)) :
    lookupCache (clean_old_cache c t) p = some f := by
  induction c with
  | nil => simp [lookupCache] at h
  | cons e rest ih =>
    by_cases he : e.1 = p
    · have hf : e.2 = f := by
        simp [lookupCache, List.find?, he] at h
        exact h
      subst hf
      simp [clean_old_cache, List.filter_cons, hk, lookupCache, List.find?, he]
    · have hne : (e.1 == p) = false := by simpa using he
      have h' : lookupCache rest p = some f := by
        simp only [lookupCache, List.find?, hne] at h
        exact h
      have ih' := ih h'
      by_cases hkeep : t - e.2.mtime > CACHE_TTL_SECONDS
      · simpa [clean_old_cache, List.filter_cons, hkeep] using ih'
      · simpa [clean_old_cache, List.filter_cons, hkeep, lookupCache, List.find?, he]
          using ih'

theorem hexDigit_isHex (n : Nat) : isHexChar (hexDigit n) = true := by
  have hall : ∀ m, m < 16 → isHexChar (Nat.digitChar m) = true := by decide
  exact hall (n % 16) (Nat.mod_lt n (by decide))

theorem length_token_hex (k : Nat) (rand : Nat → Byte) :
    (token_hex k rand).length = 2 * k := by
  simp only [token_hex, List.length_flatMap]
  induction k with
  | zero => simp
  | succ m ih =>
    rw [List.range_succ]
    simp_all [Nat.mul_succ]

theorem mem_token_hex (k : Nat) (rand : Nat → Byte) (ch : Char)
    (h : ch ∈ token_hex k rand) : isHexChar ch = true := by
  simp only [token_hex, List.mem_flatMap] at h
  obtain ⟨i, _, hi⟩ := h
  simp only [List.mem_cons, List.mem_singleton] at hi
  rcases hi with h1 | h2 | h3
  · exact h1 ▸ hexDigit_isHex _
  · exact h2 ▸ hexDigit_isHex _
  · cases h3

theorem leadsWith_iff (n h : List Char) :
    leadsWith n h = true ↔ ∃ t, h = n ++ t := by
  induction n generalizing h with
  | nil => simp [leadsWith]
  | cons a as ih =>
    cases h with
    | nil =>
      simp only [leadsWith, List.cons_append]
      constructor
      · intro hfalse; cases hfalse
      · rintro ⟨t, ht⟩; cases ht
    | cons b bs =>
      simp only [leadsWith, Bool.and_eq_true, beq_iff_eq, ih, List.cons_append]
      constructor
      · rintro ⟨rfl, t, rfl⟩; exact ⟨t, rfl⟩
      · rintro ⟨t, ht⟩
        injection ht with h1 h2
        exact ⟨h1.symm, t, h2⟩

theorem containsSeq_iff (n h : List Char) :
    containsSeq n h = true ↔ ∃ pre suf, h = pre ++ n ++ suf := by
  induction h with
  | nil =>
    simp only [containsSeq, leadsWith_iff]
    constructor
    · rintro ⟨t, ht⟩
      exact ⟨[], t, by simpa using ht⟩
    · rintro ⟨pre, suf, hps⟩
      have : pre = [] ∧ n ++ suf = [] := by
        simpa [List.append_eq_nil] using hps.symm
      exact ⟨suf, by simp [this.2.symm]⟩
  | cons c t ih =>
    simp only [containsSeq, Bool.or_eq_true, leadsWith_iff, ih]
    constructor
    · rintro (⟨s, hs⟩ | ⟨pre, suf, hps⟩)
      · exact ⟨[], s, by simpa using hs⟩
      · exact ⟨c :: pre, suf, by simp [hps]⟩
    · rintro ⟨pre, suf, hps⟩
      cases pre with
      | nil =>
        exact Or.inl ⟨suf, by simpa using hps⟩
      | cons p ps =>
        right
        injection hps with h1 h2
        exact ⟨ps, suf, h2⟩

theorem lookupStore_cons (k : String) (v : DownloadRecord) (s : Store) (i : String) :
    lookupStore ((k, v) :: s) i = if k == i then some v else lookupStore s i := by
  cases hk : (k == i) <;> simp [lookupStore, List.find?, hk]

theorem lookupStore_updateSize (s : Store) (id size i : String) (r : DownloadRecord)
    (h : lookupStore s i = some r) :
    ∃ r', lookupStore (updateSize s id size) i = some r'
      ∧ r'.original_url = r.original_url
      ∧ r'.renamed_filename = r.renamed_filename
      ∧ r'.generated_link = r.generated_link := by
  induction s with
  | nil => simp [lookupStore] at h
  | cons e rest ih =>
    cases hk : (e.1 == i) with
    | true =>
      have hr : e.2 = r := by
        simp only [lookupStore, List.find?, hk] at h
        simpa using h
      cases hid : (e.1 == id) with
      | true =>
        refine ⟨⟨r.original_url, r.renamed_filename, r.generated_link,
                 r.downloads, some size⟩, ?_, rfl, rfl, rfl⟩
        simp [updateSize, lookupStore, List.find?, hid, hk, hr]
      | false =>
        refine ⟨r, ?_, rfl, rfl, rfl⟩
        simp [updateSize, lookupStore, List.find?, hid, hk, hr]
    | false =>
      have h' : lookupStore rest i = some r := by
        simp only [lookupStore, List.find?, hk] at h
        exact h
      obtain ⟨r', hr', h1, h2, h3⟩ := ih h'
      refine ⟨r', ?_, h1, h2, h3⟩
      cases hid : (e.1 == id) <;>
        simpa [updateSize, lookupStore, List.find?, hid, hk] using hr'

/-! ## Concrete fixtures used by witnesses and counterexamples -/

/-- A record whose `original_url` is a WildShare page URL (needs resolution). -/
def wildRow : DownloadRecord :=
  ⟨"https://wildshare.net/f", "movie.mkv", "http://localhost:5000/download-page/a1", 0, none⟩

/-- A record whose `original_url` is a direct URL (no resolution). -/
def directRow : DownloadRecord :=
  ⟨"http://example.com/file.bin", "movie.mkv", "http://localhost:5000/download-page/a1", 0, none⟩

def wildStore : Store := [("a1", wildRow)]

def directStore : Store := [("a1", directRow)]

/-- A world whose external calls are never reached. -/
def noopWorld : World := ⟨fun _ => .raise "unreachable", none, fun _ => .raise "unreachable"⟩

/-- Resolver succeeds, but the `file_size` UPDATE raises. -/
def dbFailWorld : World :=
  ⟨fun _ => .ok ⟨"https://wildshare.net/dl", [], "126.26 MB"⟩, some "disk I/O error",
   fun _ => .resp ⟨200, none, none, [[1, 2], [3]], false⟩⟩

/-- Upstream returns 200 announcing 32 bytes, yields a single 16-byte chunk,
then the connection drops mid-stream (the spec's partial-failure scenario,
"aborts after 4096 of 8192 expected bytes", at byte counts scaled down by
256). -/
def midFailWorld : World :=
  ⟨fun _ => .raise "unreachable", none,
   fun _ => .resp ⟨200, some "32", none, [List.replicate 16 7], true⟩⟩

/-- A 200 upstream response streaming three bytes in two chunks, successfully. -/
def okResp : UpstreamResponse := ⟨200, some "3", none, [[5, 6], [7]], false⟩

/-- Upstream returns `okResp` for every URL. -/
def okFetchWorld : World :=
  ⟨fun _ => .raise "unreachable", none, fun _ => .resp okResp⟩

/-- A cache holding one entry written at time 0. -/
def staleCache : CacheState := [("cache/x.cache", ⟨[9, 9], 0⟩)]

/-! ## Unfolding lemmas for the `/download` handler -/

theorem fetch_and_serve_hit (w : World) (c : CacheState) (now : Int) (fn url : String)
    (hhit : is_cache_valid c (get_cache_path url) now = true) :
    ∃ hd, fetch_and_serve w c now fn url = (.serveCache (get_cache_path url) hd, c) := by
  unfold fetch_and_serve
  simp only [hhit, if_true]
  exact ⟨_, rfl⟩

theorem fetch_and_serve_miss (w : World) (c : CacheState) (now : Int) (fn url : String)
    (r : UpstreamResponse)
    (hmiss : is_cache_valid c (get_cache_path url) now = false)
    (hf : w.fetch url = .resp r) (h200 : r.status_code = 200) :
    ∃ hd, fetch_and_serve w c now fn url =
      (.serveUpstream (get_cache_path url) r.chunks r.iterFails hd, c) := by
  unfold fetch_and_serve
  simp only [hmiss, Bool.false_eq_true, if_false, hf, h200]
  rw [if_neg (by simp)]
  exact ⟨_, rfl⟩

theorem download_no_resolution (w : World) (s : Store) (c : CacheState) (now : Int)
    (id : String) (row : DownloadRecord)
    (h : lookupStore s id = some row)
    (hr : needs_resolution row.original_url = false) :
    download w s c now id =
      ((fetch_and_serve w (clean_old_cache c now) now
          row.renamed_filename row.original_url).1,
       s,
       (fetch_and_serve w (clean_old_cache c now) now
          row.renamed_filename row.original_url).2,
       0) := by
  unfold download
  simp only [h, hr, Bool.false_eq_true, if_false]

/-! ## The claims -/

/-- C4: the freshness check `is_cache_valid` returns true iff the cache file
exists and its age `now - mtime` is strictly below the configured TTL of
7 days (604800 seconds); an entry whose age is exactly the TTL is not fresh. -/
theorem C4_is_cache_valid_iff (c : CacheState) (p : String) (now : Int) (f : CacheFile) :
    (is_cache_valid c p now = true ↔
      ∃ g, lookupCache c p = some g ∧ now - g.mtime < CACHE_TTL_SECONDS)
    ∧ CACHE_TTL_SECONDS = 7 * 24 * 3600
    ∧ (lookupCache c p = some f → now - f.mtime = CACHE_TTL_SECONDS →
        is_cache_valid c p now = false) := by
  refine ⟨?_, rfl, ?_⟩
  · unfold is_cache_valid
    cases hl : lookupCache c p with
    | none => simp
    | some g => simp [hl]
  · intro hl he
    unfold is_cache_valid
    rw [hl]
    simp [he]

/-- Witness for C4 at a concrete input: a single entry written at time 0 is
not fresh at time 604800 (age exactly the TTL). -/
theorem C4_witness :
    is_cache_valid [("cache/u.cache", ⟨[1], 0⟩)] "cache/u.cache" 604800 = false :=
  (C4_is_cache_valid_iff [("cache/u.cache", ⟨[1], 0⟩)] "cache/u.cache" 604800
    ⟨[1], 0⟩).2.2 rfl (by decide)

/-- C5: the sweep `clean_old_cache` keeps exactly the entries whose age does
not exceed the TTL (equivalently, it deletes exactly those whose age strictly
exceeds it), and it is idempotent: sweeping twice at the same time removes
nothing more the second time. -/
theorem C5_sweep (c : CacheState) (now : Int) :
    (∀ e, e ∈ clean_old_cache c now ↔
        e ∈ c ∧ ¬(now - e.2.mtime > CACHE_TTL_SECONDS))
    ∧ clean_old_cache (clean_old_cache c now) now = clean_old_cache c now := by
  constructor
  · intro e
    simp [clean_old_cache, List.mem_filter]
  · unfold clean_old_cache
    induction c with
    | nil => rfl
    | cons e t ih =>
      by_cases hkeep : now - e.2.mtime > CACHE_TTL_SECONDS
      · simp [List.filter_cons, hkeep, ih]
      · simp [List.filter_cons, hkeep, ih]

/-- Witness for C5 at a concrete input: sweeping a two-entry cache (one stale,
one fresh) twice at time 604801 equals sweeping it once. -/
theorem C5_witness :
    clean_old_cache (clean_old_cache [("cache/a.cache", ⟨[1], 0⟩),
      ("cache/b.cache", ⟨[2], 600000⟩)] 604801) 604801 =
    clean_old_cache [("cache/a.cache", ⟨[1], 0⟩),
      ("cache/b.cache", ⟨[2], 600000⟩)] 604801 :=
  (C5_sweep [("cache/a.cache", ⟨[1], 0⟩), ("cache/b.cache", ⟨[2], 600000⟩)] 604801).2

/-- C7 counterexample: `generate_id(1)` is `secrets.token_hex(0)[:1] = ""`,
a 0-character string, so the claim "for every n ≥ 1 the identifier has exactly
n hex characters" fails at n = 1. -/
theorem C7_counterexample : (generate_id (fun _ => 0) 1).length ≠ 1 := by decide

/-- C7 (amended): `generate_id(n)` returns `n - n % 2` lower-case hex
characters — exactly `n` when `n` is even (so exactly 6 for the default
`length=6`), but `n - 1` when `n` is odd. Every character is a lower-case hex
digit. -/
theorem C7_generate_id_length (rand : Nat → Byte) (n : Nat) :
    (generate_id rand n).length = n - n % 2
    ∧ (∀ ch ∈ generate_id rand n, isHexChar ch = true)
    ∧ (generate_id rand 6).length = 6 := by
  refine ⟨?_, ?_, ?_⟩
  · unfold generate_id
    rw [List.length_take, length_token_hex]
    omega
  · intro ch hch
    exact mem_token_hex _ rand ch (List.mem_of_mem_take hch)
  · unfold generate_id
    rw [List.length_take, length_token_hex]
    omega

/-- Witness for C7's amended theorem at a concrete input: with an all-0xff
random stream the 6-character id is `"ffffff"`, of length `6 - 6 % 2 = 6`,
and its character `'f'` is a hex digit. -/
theorem C7_witness :
    (generate_id (fun _ => 255) 6).length = 6 - 6 % 2 ∧ isHexChar 'f' = true :=
  ⟨(C7_generate_id_length (fun _ => 255) 6).1,
   (C7_generate_id_length (fun _ => 255) 6).2.1 'f' (by decide)⟩

/-- C1: evaluation of the code at the failing input. The record's direct URL
is fetched; upstream announces 32 bytes, yields 16 bytes and then the
iterator raises mid-stream. The client sees a truncated stream and a terminal
error (`errored = true`), but — contrary to the claim and to §4.3/§8 of the
spec — the partially written 16-byte blob is *not* deleted: the handler's
`except` block has already returned when the generator runs, so the cache key
for that URL is present and `is_cache_valid` reports it fresh on the next
request. -/
theorem C1_truncated_blob_left_fresh :
    (download_request midFailWorld directStore [] 0 "a1").stream.errored = true
    ∧ (download_request midFailWorld directStore [] 0 "a1").stream.sent.flatten.length
        = 16
    ∧ is_cache_valid (download_request midFailWorld directStore [] 0 "a1").stream.cache
        (get_cache_path "http://example.com/file.bin") 1 = true := by
  exact ⟨rfl, rfl, rfl⟩

/-- C2 counterexample: a request whose record needs resolution, whose resolver
invocation succeeds, and whose `file_size` UPDATE raises. Contrary to the
claim, the persistence failure is not merely logged: it is caught by the same
`except` as a resolver failure and aborts the request with a 500
`Failed to scrape WildShare` error; no transfer takes place. -/
theorem C2_counterexample :
    (download dbFailWorld wildStore [] 0 "a1").1 =
      .scrapeFailed "Failed to scrape WildShare: disk I/O error"
    ∧ (download dbFailWorld wildStore [] 0 "a1").2.1 = wildStore := by
  constructor <;> rfl

/-- C2 (amended): whenever the resolver is invoked and succeeds but the
persistence of the freshly resolved size fails, the `/download` request is
aborted with the 500 `Failed to scrape WildShare` error (the UPDATE sits in
the same try/except as the resolver call); the store is left unchanged and no
bytes are transferred. -/
theorem C2_persist_failure_fatal (w : World) (s : Store) (c : CacheState)
    (now : Int) (id : String) (row : DownloadRecord) (res : ResolverSuccess)
    (msg : String)
    (h : lookupStore s id = some row)
    (hr : needs_resolution row.original_url = true)
    (hres : w.resolver row.original_url = .ok res)
    (hdb : w.dbUpdateError = some msg) :
    (download w s c now id).1 = .scrapeFailed ("Failed to scrape WildShare: " ++ msg)
    ∧ (download w s c now id).2.1 = s
    ∧ (run_stream (download w s c now id).1 (download w s c now id).2.2.1 now).sent
        = [] := by
  unfold download
  simp only [h, hr, if_true, hres, hdb]
  exact ⟨trivial, trivial, rfl⟩

/-- Witness for C2's amended theorem at the concrete counterexample input. -/
theorem C2_witness :
    (download dbFailWorld wildStore [] 5 "a1").1 =
      .scrapeFailed ("Failed to scrape WildShare: " ++ "disk I/O error")
    ∧ (download dbFailWorld wildStore [] 5 "a1").2.1 = wildStore
    ∧ (run_stream (download dbFailWorld wildStore [] 5 "a1").1
        (download dbFailWorld wildStore [] 5 "a1").2.2.1 5).sent = [] :=
  C2_persist_failure_fatal dbFailWorld wildStore [] 5 "a1" wildRow
    ⟨"https://wildshare.net/dl", [], "126.26 MB"⟩ "disk I/O error"
    rfl (by decide) rfl rfl

/-- C6 counterexample: `GET /download/<id>` runs `clean_old_cache()` before
the record lookup, so a request for a never-created id still deletes stale
cache entries: with one entry of age 604801 > TTL in the cache, the unknown-id
request returns 404 but leaves a different (smaller) cache. -/
theorem C6_counterexample :
    (download noopWorld [] staleCache 604801 "zzz").1 = .notFound
    ∧ (download noopWorld [] staleCache 604801 "zzz").2.2.1 ≠ staleCache := by
  constructor
  · rfl
  · decide

/-- C6 (amended): for a never-created id, `GET /download/<id>` and
`GET /download-page/<id>` both return the 404 not-found outcome (never a
server error), neither modifies the Record Store, and the only cache
modification is the opportunistic stale-entry sweep that `/download` runs
before its lookup (`/download-page` touches neither store nor cache, as the
type of `download_page` shows); the resolver is never invoked. -/
theorem C6_unknown_id (w : World) (s : Store) (c : CacheState) (now : Int)
    (id : String) (h : lookupStore s id = none) :
    download_page s id = .notFound
    ∧ (download w s c now id).1 = .notFound
    ∧ (download w s c now id).2.1 = s
    ∧ (download w s c now id).2.2.1 = clean_old_cache c now
    ∧ (download w s c now id).2.2.2 = 0 := by
  unfold download download_page
  simp only [h]
  exact ⟨trivial, trivial, trivial, trivial, trivial⟩

/-- Witness for C6's amended theorem at a concrete input. -/
theorem C6_witness :
    download_page directStore "zzz" = .notFound
    ∧ (download noopWorld directStore staleCache 604801 "zzz").1 = .notFound
    ∧ (download noopWorld directStore staleCache 604801 "zzz").2.1 = directStore
    ∧ (download noopWorld directStore staleCache 604801 "zzz").2.2.1
        = clean_old_cache staleCache 604801
    ∧ (download noopWorld directStore staleCache 604801 "zzz").2.2.2 = 0 :=
  C6_unknown_id noopWorld directStore staleCache 604801 "zzz" (by decide)

/-- C8: for a `/download` request whose record exists, the Link Resolver is
invoked exactly once iff the stored `original_url` matches the
needs-resolution test — it contains the substring `wildshare.net` and no `?` —
and zero times otherwise; and that test is equivalent to the literal
substring/character conditions. -/
theorem C8_resolver_invocation (w : World) (s : Store) (c : CacheState)
    (now : Int) (id : String) (row : DownloadRecord)
    (h : lookupStore s id = some row) :
    (download w s c now id).2.2.2 =
      (if needs_resolution row.original_url then 1 else 0)
    ∧ (needs_resolution row.original_url = true ↔
        (∃ pre suf, row.original_url.data = pre ++ "wildshare.net".data ++ suf)
        ∧ '?' ∉ row.original_url.data) := by
  constructor
  · unfold download
    simp only [h]
    by_cases hr : needs_resolution row.original_url
    · simp only [hr, if_true]
      cases w.resolver row.original_url with
      | raise msg => rfl
      | ok res =>
        cases w.dbUpdateError with
        | some msg => rfl
        | none => rfl
    · simp only [hr, Bool.false_eq_true, if_false]
  · unfold needs_resolution strIn
    rw [Bool.and_eq_true, containsSeq_iff]
    simp [List.contains]

/-- Witness for C8 at a concrete input: the WildShare page URL of `wildRow`
contains `wildshare.net` and no `?`, and the resolver is invoked exactly once
(the `if` evaluates to 1). -/
theorem C8_witness :
    (download dbFailWorld wildStore [] 0 "a1").2.2.2 =
      (if needs_resolution wildRow.original_url then 1 else 0) :=
  (C8_resolver_invocation dbFailWorld wildStore [] 0 "a1" wildRow rfl).1

/-- C9: once a record exists, neither `/submit` nor `/download` (nor
`/download-page`, which by the type of `download_page` touches no state)
modifies its `original_url`, `renamed_filename` or `generated_link`, no
operation deletes it, and `file_size` is the only field `/download` may
update. -/
theorem C9_record_immutable (s : Store) (i : String) (r : DownloadRecord)
    (url filename : Option String) (rand : Nat → Byte)
    (w : World) (c : CacheState) (now : Int) (id : String)
    (h : lookupStore s i = some r) :
    (∃ r', lookupStore (submit s url filename rand).2 i = some r'
        ∧ r'.original_url = r.original_url
        ∧ r'.renamed_filename = r.renamed_filename
        ∧ r'.generated_link = r.generated_link
        ∧ r'.file_size = r.file_size)
    ∧ (∃ r', lookupStore (download w s c now id).2.1 i = some r'
        ∧ r'.original_url = r.original_url
        ∧ r'.renamed_filename = r.renamed_filename
        ∧ r'.generated_link = r.generated_link) := by
  constructor
  · -- `/submit` either leaves the store unchanged or prepends a fresh id
    unfold submit
    cases url with
    | none => exact ⟨r, h, rfl, rfl, rfl, rfl⟩
    | some u =>
      by_cases hu : u = ""
      · simp only [hu, if_true]
        exact ⟨r, h, rfl, rfl, rfl, rfl⟩
      · simp only [hu, if_false]
        cases hdup : (lookupStore s (⟨generate_id rand 6⟩ : String)).isSome with
        | true =>
          simp only [hdup, if_true]
          exact ⟨r, h, rfl, rfl, rfl, rfl⟩
        | false =>
          simp only [hdup, Bool.false_eq_true, if_false]
          refine ⟨r, ?_, rfl, rfl, rfl, rfl⟩
          rw [lookupStore_cons]
          have hne : ((⟨generate_id rand 6⟩ : String) == i) = false := by
            by_contra hcon
            have heq : (⟨generate_id rand 6⟩ : String) = i := by
              cases hb : ((⟨generate_id rand 6⟩ : String) == i) with
              | true => exact eq_of_beq hb
              | false => exact absurd hb hcon
            rw [heq, h] at hdup
            simp at hdup
          rw [hne]
          exact h
  · -- `/download` either leaves the store unchanged or updates `file_size`
    unfold download
    cases hrow : lookupStore s id with
    | none => exact ⟨r, h, rfl, rfl, rfl⟩
    | some row =>
      by_cases hr2 : needs_resolution row.original_url
      · simp only [hr2, if_true]
        cases w.resolver row.original_url with
        | raise msg => exact ⟨r, h, rfl, rfl, rfl⟩
        | ok res =>
          cases w.dbUpdateError with
          | some msg => exact ⟨r, h, rfl, rfl, rfl⟩
          | none =>
            obtain ⟨r', hr', h1, h2, h3⟩ := lookupStore_updateSize s id res.file_size i r h
            exact ⟨r', hr', h1, h2, h3⟩
      · simp only [hr2, Bool.false_eq_true, if_false]
        exact ⟨r, h, rfl, rfl, rfl⟩

/-- Witness for C9 at a concrete input: the record `a1` of `directStore`
keeps its immutable fields across a `/submit` and a `/download`. -/
theorem C9_witness :
    (∃ r', lookupStore (submit directStore (some "http://other") none
        (fun _ => 0)).2 "a1" = some r'
      ∧ r'.original_url = directRow.original_url
      ∧ r'.renamed_filename = directRow.renamed_filename
      ∧ r'.generated_link = directRow.generated_link
      ∧ r'.file_size = directRow.file_size)
    ∧ (∃ r', lookupStore (download dbFailWorld directStore [] 0 "a1").2.1 "a1"
        = some r'
      ∧ r'.original_url = directRow.original_url
      ∧ r'.renamed_filename = directRow.renamed_filename
      ∧ r'.generated_link = directRow.generated_link) :=
  C9_record_immutable directStore "a1" directRow (some "http://other") none
    (fun _ => 0) dbFailWorld [] 0 "a1" rfl

/-- C10 counterexample: two submissions whose JSON body contains a `url` and
no `filename`, yet which do not succeed: (a) `{"url": ""}` — the empty string
is falsy, so `if not original_url` rejects it with 400; (b) a body whose
generated id (`"000000"` for an all-zero random stream) already exists in the
store — the `INSERT` hits the primary-key constraint and raises, a 500. -/
theorem C10_counterexample :
    (submit [] (some "") none (fun _ => 0)).1 = .badRequest "Missing 'url'"
    ∧ (submit [("000000", directRow)] (some "http://example.com/file.bin") none
        (fun _ => 0)).1 = .serverError := by
  exact ⟨rfl, by decide⟩

/-- C10 (amended): for a `/submit` whose body contains a *non-empty* `url`
and no `filename` field, and whose freshly generated id is not already in the
store, the request succeeds (200) and the record is created with the default
display filename `download.mkv`, which the response returns as
`renamed_filename`. -/
theorem C10_submit_default_filename (s : Store) (u : String) (rand : Nat → Byte)
    (hu : ¬(u = ""))
    (hid : lookupStore s (⟨generate_id rand 6⟩ : String) = none) :
    (submit s (some u) none rand).1 =
      .ok (⟨generate_id rand 6⟩ : String) u "download.mkv"
        (BASE_URL ++ "/download-page/" ++ (⟨generate_id rand 6⟩ : String))
    ∧ lookupStore (submit s (some u) none rand).2 (⟨generate_id rand 6⟩ : String) =
        some ⟨u, "download.mkv",
          BASE_URL ++ "/download-page/" ++ (⟨generate_id rand 6⟩ : String), 0, none⟩ := by
  unfold submit
  simp only [hu, if_false, hid, Option.isSome_none, Bool.false_eq_true]
  constructor
  · rfl
  · rw [lookupStore_cons]
    simp only [beq_self_eq_true, if_true, Option.getD]

/-- Witness for C10's amended theorem at a concrete input: submitting
`{"url": "http://example.com/file.bin"}` to an empty store with an all-zero
random stream yields id `"000000"` and filename `download.mkv`. -/
theorem C10_witness :
    (submit [] (some "http://example.com/file.bin") none (fun _ => 0)).1 =
      .ok (⟨generate_id (fun _ => 0) 6⟩ : String) "http://example.com/file.bin"
        "download.mkv"
        (BASE_URL ++ "/download-page/" ++ (⟨generate_id (fun _ => 0) 6⟩ : String))
    ∧ lookupStore (submit [] (some "http://example.com/file.bin") none (fun _ => 0)).2
        (⟨generate_id (fun _ => 0) 6⟩ : String) =
      some ⟨"http://example.com/file.bin", "download.mkv",
        BASE_URL ++ "/download-page/" ++ (⟨generate_id (fun _ => 0) 6⟩ : String),
        0, none⟩ :=
  C10_submit_default_filename [] "http://example.com/file.bin" (fun _ => 0)
    (by decide) rfl

/-- C3: cache round-trip. A first `/download` request that misses the cache
(with a record needing no resolution) streams the upstream bytes and writes
them through to the cache; a second request for the same record before TTL
expiry takes the serve-from-cache path and delivers byte-identical content of
equal length, with no error. -/
theorem C3_cache_roundtrip (w₁ w₂ : World) (s : Store) (c : CacheState)
    (t₁ t₂ : Int) (id : String) (row : DownloadRecord) (r : UpstreamResponse)
    (hrow : lookupStore s id = some row)
    (hnores : needs_resolution row.original_url = false)
    (hfetch : w₁.fetch row.original_url = .resp r)
    (hstatus : r.status_code = 200)
    (hok : r.iterFails = false)
    (hmiss : is_cache_valid (clean_old_cache c t₁)
        (get_cache_path row.original_url) t₁ = false)
    (hfresh : t₂ - t₁ < CACHE_TTL_SECONDS) :
    (download_request w₁ s c t₁ id).stream.sent.flatten = r.chunks.flatten
    ∧ (download_request w₁ s c t₁ id).stream.errored = false
    ∧ (∃ hd, (download_request w₂ (download_request w₁ s c t₁ id).store
          (download_request w₁ s c t₁ id).stream.cache t₂ id).phase
        = .serveCache (get_cache_path row.original_url) hd)
    ∧ (download_request w₂ (download_request w₁ s c t₁ id).store
          (download_request w₁ s c t₁ id).stream.cache t₂ id).stream.sent.flatten
        = r.chunks.flatten
    ∧ (download_request w₂ (download_request w₁ s c t₁ id).store
          (download_request w₁ s c t₁ id).stream.cache t₂ id).stream.sent.flatten.length
        = r.chunks.flatten.length
    ∧ (download_request w₂ (download_request w₁ s c t₁ id).store
          (download_request w₁ s c t₁ id).stream.cache t₂ id).stream.errored
        = false := by
  obtain ⟨hd₁, hfs₁⟩ := fetch_and_serve_miss w₁ (clean_old_cache c t₁) t₁
    row.renamed_filename row.original_url r hmiss hfetch hstatus
  have hdl₁ : download w₁ s c t₁ id =
      (.serveUpstream (get_cache_path row.original_url) r.chunks r.iterFails hd₁, s,
       clean_old_cache c t₁, 0) := by
    rw [download_no_resolution w₁ s c t₁ id row hrow hnores, hfs₁]
  have hreq₁ : download_request w₁ s c t₁ id =
      ⟨.serveUpstream (get_cache_path row.original_url) r.chunks r.iterFails hd₁, s,
       ⟨r.chunks.filter (fun ch => !ch.isEmpty),
        setCache (clean_old_cache c t₁) (get_cache_path row.original_url)
          ⟨(r.chunks.filter (fun ch => !ch.isEmpty)).flatten, t₁⟩,
        r.iterFails⟩, 0⟩ := by
    unfold download_request
    rw [hdl₁]
    rfl
  have hB : (r.chunks.filter (fun ch => !ch.isEmpty)).flatten = r.chunks.flatten :=
    flatten_filter_nonempty r.chunks
  have hlk : lookupCache
      (setCache (clean_old_cache c t₁) (get_cache_path row.original_url)
        ⟨(r.chunks.filter (fun ch => !ch.isEmpty)).flatten, t₁⟩)
      (get_cache_path row.original_url) =
      some ⟨(r.chunks.filter (fun ch => !ch.isEmpty)).flatten, t₁⟩ :=
    lookupCache_set _ _ _
  have hnotold : ¬(t₂ - (⟨(r.chunks.filter (fun ch => !ch.isEmpty)).flatten,
      t₁⟩ : CacheFile).mtime > CACHE_TTL_SECONDS) := by
    simp only []
    linarith
  have hlk2 : lookupCache (clean_old_cache
      (setCache (clean_old_cache c t₁) (get_cache_path row.original_url)
        ⟨(r.chunks.filter (fun ch => !ch.isEmpty)).flatten, t₁⟩) t₂)
      (get_cache_path row.original_url) =
      some ⟨(r.chunks.filter (fun ch => !ch.isEmpty)).flatten, t₁⟩ :=
    lookupCache_clean _ t₂ _ _ hlk hnotold
  have hvalid : is_cache_valid (clean_old_cache
      (setCache (clean_old_cache c t₁) (get_cache_path row.original_url)
        ⟨(r.chunks.filter (fun ch => !ch.isEmpty)).flatten, t₁⟩) t₂)
      (get_cache_path row.original_url) t₂ = true := by
    unfold is_cache_valid
    rw [hlk2]
    simpa using hfresh
  obtain ⟨hd₂, hfs₂⟩ := fetch_and_serve_hit w₂ _ t₂ row.renamed_filename
    row.original_url hvalid
  have hdl₂ : download w₂ s
      (setCache (clean_old_cache c t₁) (get_cache_path row.original_url)
        ⟨(r.chunks.filter (fun ch => !ch.isEmpty)).flatten, t₁⟩) t₂ id =
      (.serveCache (get_cache_path row.original_url) hd₂, s,
       clean_old_cache
        (setCache (clean_old_cache c t₁) (get_cache_path row.original_url)
          ⟨(r.chunks.filter (fun ch => !ch.isEmpty)).flatten, t₁⟩) t₂, 0) := by
    rw [download_no_resolution w₂ s _ t₂ id row hrow hnores, hfs₂]
  have hreq₂ : download_request w₂ s
      (setCache (clean_old_cache c t₁) (get_cache_path row.original_url)
        ⟨(r.chunks.filter (fun ch => !ch.isEmpty)).flatten, t₁⟩) t₂ id =
      ⟨.serveCache (get_cache_path row.original_url) hd₂, s,
       ⟨readChunks ((r.chunks.filter (fun ch => !ch.isEmpty)).flatten),
        clean_old_cache
          (setCache (clean_old_cache c t₁) (get_cache_path row.original_url)
            ⟨(r.chunks.filter (fun ch => !ch.isEmpty)).flatten, t₁⟩) t₂,
        false⟩, 0⟩ := by
    unfold download_request
    rw [hdl₂]
    dsimp only [run_stream]
    rw [hlk2]
  rw [hreq₁]
  simp only []
  rw [hreq₂]
  refine ⟨hB, hok, ⟨hd₂, rfl⟩, ?_, ?_, rfl⟩
  · rw [readChunks_flatten, hB]
  · rw [readChunks_flatten, hB]

/-- The first request of the C3 witness scenario. -/
def req1 : RequestOutcome := download_request okFetchWorld directStore [] 0 "a1"

/-- The second request of the C3 witness scenario, at time 1. -/
def req2 : RequestOutcome :=
  download_request noopWorld req1.store req1.stream.cache 1 "a1"

/-- Witness for C3 at a concrete input: three bytes `[5, 6], [7]` fetched at
time 0 are served back byte-identically from the cache at time 1. -/
theorem C3_witness :
    req1.stream.sent.flatten = okResp.chunks.flatten
    ∧ req1.stream.errored = false
    ∧ (∃ hd, req2.phase = .serveCache (get_cache_path directRow.original_url) hd)
    ∧ req2.stream.sent.flatten = okResp.chunks.flatten
    ∧ req2.stream.sent.flatten.length = okResp.chunks.flatten.length
    ∧ req2.stream.errored = false :=
  C3_cache_roundtrip okFetchWorld noopWorld directStore [] 0 1 "a1" directRow okResp
    rfl (by decide) rfl rfl rfl (by decide) (by decide)
